import Mathlib

/-
Shallow embedding of the configify-consul source (package consul):
a self-refreshing, namespace-scoped configuration source backed by a
Consul key/value store.  The embedding mirrors src/consul.go and
src/unnamed/part_001 (an earlier revision of the same file, with the
functional-options constructor).  The external `configify` library
(Namespace.Qualify, Massage coercions, the Empty defaults source) is an
external collaborator; where its behaviour matters it is modelled from
the spec, marked `Modelled from the spec:` below.
-/

namespace Consul

/-- Namespace from the external configify library: a prefix name and a
delimiter used to qualify keys.  (Called `Namespace` in Go; renamed here
because `namespace` is a Lean keyword.) -/
structure GoNamespace where
  name : String
  delim : String
deriving DecidableEq, Repr

/-- Modelled from the spec: `qualify(key) = name + delimiter + key` if
`name` is non-empty, else `key` (configify's Namespace.Qualify is not in
this repository). -/
def GoNamespace.Qualify (ns : GoNamespace) (key : String) : String :=
  if ns.name = "" then key else ns.name ++ ns.delim ++ key

/-- The configify.Source interface: one typed accessor per scalar kind,
each returning `(value, found)`.  Go's signed integers are modelled as
`Int`, unsigned as `Nat`, `time.Duration` (int64 nanoseconds) and
`time.Time` as `Int`.  Used here as the type of the Defaults fallback. -/
structure SourceFns where
  string : String → String × Bool
  stringSlice : String → List String × Bool
  int : String → Int × Bool
  int8 : String → Int × Bool
  int16 : String → Int × Bool
  int32 : String → Int × Bool
  int64 : String → Int × Bool
  uint : String → Nat × Bool
  uint8 : String → Nat × Bool
  uint16 : String → Nat × Bool
  uint32 : String → Nat × Bool
  uint64 : String → Nat × Bool
  float32 : String → Float × Bool
  float64 : String → Float × Bool
  bool : String → Bool × Bool
  duration : String → Int × Bool
  time : String → Int × Bool

/-- Modelled from the spec: `configify.Empty()` — "a Defaults fallback
source (defaults to an empty source if unset)"; "for all keys absent from
the Snapshot with no Default configured, every get<T> returns
(zero(T), false)". -/
def emptySource : SourceFns where
  string := fun _ => ("", false)
  stringSlice := fun _ => ([], false)
  int := fun _ => (0, false)
  int8 := fun _ => (0, false)
  int16 := fun _ => (0, false)
  int32 := fun _ => (0, false)
  int64 := fun _ => (0, false)
  uint := fun _ => (0, false)
  uint8 := fun _ => (0, false)
  uint16 := fun _ => (0, false)
  uint32 := fun _ => (0, false)
  uint64 := fun _ => (0, false)
  float32 := fun _ => ((0.0 : Float), false)
  float64 := fun _ => ((0.0 : Float), false)
  bool := fun _ => (false, false)
  duration := fun _ => (0, false)
  time := fun _ => (0, false)

/-- configify.Massage: the external string-to-typed-value coercion
library.  The consul source stores one instance and calls these
functions on trimmed raw values. -/
structure Massage where
  stringToSlice : String → List String × Bool
  stringToInt64 : String → Int × Bool
  stringToUint64 : String → Nat × Bool
  stringToFloat64 : String → Float × Bool
  stringToBool : String → Bool × Bool
  stringToDuration : String → Int × Bool
  stringToTime : String → Int × Bool

/-- Decimal digit value of a character, if it is a digit. -/
def digitVal (c : Char) : Option Nat :=
  if c.isDigit then some (c.toNat - 48) else none

/-- Reads a run of decimal digits, failing on any non-digit. -/
def readDigits : List Char → Nat → Option Nat
  | [], acc => some acc
  | c :: rest, acc =>
    match digitVal c with
    | some d => readDigits rest (acc * 10 + d)
    | none => none

/-- Parses a non-empty all-digit character list as a natural number. -/
def parseNatAll : List Char → Option Nat
  | [] => none
  | cs => readDigits cs 0

/-- Splits an optional leading sign off a character list, returning
whether the number is negated and the remaining digits. -/
def splitSign : List Char → Bool × List Char
  | '-' :: rest => (true, rest)
  | '+' :: rest => (false, rest)
  | cs => (false, cs)

/-- The signed value of a parsed magnitude. -/
def signedValue (neg : Bool) (n : Nat) : Int :=
  if neg then -(n : Int) else (n : Int)

/-- Whether an integer is representable in a signed 64-bit word. -/
def int64Fits (v : Int) : Prop :=
  -(2 ^ 63) ≤ v ∧ v ≤ 2 ^ 63 - 1

instance (v : Int) : Decidable (int64Fits v) :=
  inferInstanceAs (Decidable (_ ∧ _))

/-- Modelled from the spec: the coercion library "parse[s] the raw string
as the widest signed/unsigned integer first" — a base-10 signed 64-bit
parse; any failure yields the zero value with found=false. -/
def stringToInt64Spec (s : String) : Int × Bool :=
  match parseNatAll (splitSign s.data).2 with
  | none => (0, false)
  | some n =>
    if int64Fits (signedValue (splitSign s.data).1 n) then
      (signedValue (splitSign s.data).1 n, true)
    else (0, false)

/-- Modelled from the spec: widest unsigned (64-bit) base-10 parse; no
sign accepted; failure yields the zero value with found=false. -/
def stringToUint64Spec (s : String) : Nat × Bool :=
  match parseNatAll s.data with
  | none => (0, false)
  | some n => if n < 2 ^ 64 then (n, true) else (0, false)

/-- Modelled from the spec: boolean coercion in the Go strconv style;
failure yields the zero value (false) with found=false. -/
def stringToBoolSpec (s : String) : Bool × Bool :=
  if s = "1" ∨ s = "t" ∨ s = "T" ∨ s = "true" ∨ s = "TRUE" ∨ s = "True" then (true, true)
  else if s = "0" ∨ s = "f" ∨ s = "F" ∨ s = "false" ∨ s = "FALSE" ∨ s = "False" then (false, true)
  else (false, false)

/-- Modelled from the spec: the concrete `configify.Massage{}` instance
the source is constructed with.  Only its integer and boolean parsing
behaviour is ever load-bearing for the properties below; the slice,
float, duration and time coercions are external collaborators no theorem
relies on, modelled as always-failing with the zero value. -/
def specMassage : Massage where
  stringToSlice := fun _ => ([], false)
  stringToInt64 := stringToInt64Spec
  stringToUint64 := stringToUint64Spec
  stringToFloat64 := fun _ => ((0.0 : Float), false)
  stringToBool := stringToBoolSpec
  stringToDuration := fun _ => (0, false)
  stringToTime := fun _ => (0, false)

/-- Go unicode.IsSpace on the Latin-1 range: space, tab, newline,
vertical tab, form feed, carriage return, next line, no-break space.
(Code points above Latin-1 with the Unicode space property are not
exercised by any configuration value modelled here.) -/
def isGoSpace (c : Char) : Bool :=
  c.toNat = 32 || c.toNat = 9 || c.toNat = 10 || c.toNat = 11 || c.toNat = 12 ||
    c.toNat = 13 || c.toNat = 133 || c.toNat = 160

/-- Go strings.TrimSpace: drop leading and trailing white space. -/
def trimSpace (s : String) : String :=
  String.mk (((s.data.dropWhile isGoSpace).reverse.dropWhile isGoSpace).reverse)

/-- Two's-complement truncation of an integer to width `w`, mirroring
Go's `int8(..)`, `int16(..)`, `int32(..)` conversions from int64. -/
def wrapSigned (w : Nat) (n : Int) : Int :=
  let m := n % ((2 : Int) ^ w)
  if m < (2 : Int) ^ (w - 1) then m else m - (2 : Int) ^ w

/-- Truncation of an unsigned integer to width `w`, mirroring Go's
`uint8(..)`, `uint16(..)`, `uint32(..)` conversions from uint64. -/
def wrapUnsigned (w : Nat) (n : Nat) : Nat :=
  n % 2 ^ w

/-- Go float32 narrowing from float64.  No claim concerns float
precision, so the narrowing is modelled as the identity on `Float`. -/
def toFloat32 (x : Float) : Float := x

/-- configify.Options as used by this source: the connection and refresh
knobs.  The Go `Context` (cancellation signal) is modelled by its
presence; `RefreshInterval` is a `time.Duration` in nanoseconds. -/
structure Options where
  hasContext : Bool
  address : String
  username : String
  password : String
  ns : GoNamespace
  defaults : SourceFns
  refreshInterval : Int

/-- One second in nanoseconds (Go `1 * time.Second`). -/
def oneSecondNs : Int := 1000000000

/-- Ten seconds in nanoseconds (Go `10 * time.Second`). -/
def tenSecondsNs : Int := 10000000000

/-- consulSource: the source state.  `values` is the snapshot map
(Go map modelled as a key-unique association list), `lastIndex` the
applied version, `watcher` the single callback slot (callbacks are
identified by a tag; only registration and firing are observable). -/
structure ConsulSource where
  options : Options
  massage : Massage
  values : List (String × String)
  lastIndex : Nat
  watcher : Option Nat

/-- Go map assignment `m[k] = v`: replace the binding if present, else
add it. -/
def mapInsert : List (String × String) → String → String → List (String × String)
  | [], k, v => [(k, v)]
  | (k', v') :: rest, k, v =>
    if k' = k then (k, v) :: rest else (k', v') :: mapInsert rest k v

/-- Go map read `m[k]`: the binding for `k`, if any. -/
def mapGet : List (String × String) → String → Option String
  | [], _ => none
  | (k', v) :: rest, k => if k' = k then some v else mapGet rest k

/-- refresh's snapshot builder: "Convert the slice of pairs to a
quick-to-lookup map" — raw values stored as-is. -/
def buildValues (pairs : List (String × String)) : List (String × String) :=
  pairs.foldl (fun m p => mapInsert m p.1 p.2) []

/-- consulSource.refresh.  The remote call `c.kv.List(namespace, nil)`
is modelled by its result: `none` for a transport error, otherwise the
listed pairs and `meta.LastIndex`.  Returns the updated source and
whether the watcher fired. -/
def ConsulSource.refresh (c : ConsulSource)
    (listResult : Option (List (String × String) × Nat)) : ConsulSource × Bool :=
  match listResult with
  | none => (c, false)
  | some (pairs, metaLastIndex) =>
    if metaLastIndex ≤ c.lastIndex then (c, false)
    else
      let updatedValues := buildValues pairs
      let c' : ConsulSource := { c with lastIndex := metaLastIndex, values := updatedValues }
      match c'.watcher with
      | some _ => (c', true)
      | none => (c', false)

/-- consulSource.lookup: qualify the key, read the snapshot, trim the
raw value on a hit. -/
def ConsulSource.lookup (c : ConsulSource) (key : String) : String × Bool :=
  match mapGet c.values (c.options.ns.Qualify key) with
  | some value => (trimSpace value, true)
  | none => ("", false)

/-- consulSource.Watch: unconditionally overwrite the single callback
slot. -/
def ConsulSource.watch (c : ConsulSource) (callback : Option Nat) : ConsulSource :=
  { c with watcher := callback }

/-- consulSource.String. -/
def ConsulSource.string (c : ConsulSource) (key : String) : String × Bool :=
  match c.lookup key with
  | (value, true) => (value, true)
  | (_, false) => c.options.defaults.string key

/-- consulSource.StringSlice. -/
def ConsulSource.stringSlice (c : ConsulSource) (key : String) : List String × Bool :=
  match c.lookup key with
  | (value, true) => c.massage.stringToSlice value
  | (_, false) => c.options.defaults.stringSlice key

/-- consulSource.Int (Go int is 64-bit here, so `int(number)` is the
identity). -/
def ConsulSource.int (c : ConsulSource) (key : String) : Int × Bool :=
  match c.lookup key with
  | (value, true) =>
    let nb := c.massage.stringToInt64 value
    (nb.1, nb.2)
  | (_, false) => c.options.defaults.int key

/-- consulSource.Int8: widest parse, then `int8(number)`. -/
def ConsulSource.int8 (c : ConsulSource) (key : String) : Int × Bool :=
  match c.lookup key with
  | (value, true) =>
    let nb := c.massage.stringToInt64 value
    (wrapSigned 8 nb.1, nb.2)
  | (_, false) => c.options.defaults.int8 key

/-- consulSource.Int16: widest parse, then `int16(number)`. -/
def ConsulSource.int16 (c : ConsulSource) (key : String) : Int × Bool :=
  match c.lookup key with
  | (value, true) =>
    let nb := c.massage.stringToInt64 value
    (wrapSigned 16 nb.1, nb.2)
  | (_, false) => c.options.defaults.int16 key

/-- consulSource.Int32: widest parse, then `int32(number)`. -/
def ConsulSource.int32 (c : ConsulSource) (key : String) : Int × Bool :=
  match c.lookup key with
  | (value, true) =>
    let nb := c.massage.stringToInt64 value
    (wrapSigned 32 nb.1, nb.2)
  | (_, false) => c.options.defaults.int32 key

/-- consulSource.Int64. -/
def ConsulSource.int64 (c : ConsulSource) (key : String) : Int × Bool :=
  match c.lookup key with
  | (value, true) => c.massage.stringToInt64 value
  | (_, false) => c.options.defaults.int64 key

/-- consulSource.Uint (Go uint is 64-bit here, so `uint(number)` is the
identity). -/
def ConsulSource.uint (c : ConsulSource) (key : String) : Nat × Bool :=
  match c.lookup key with
  | (value, true) =>
    let nb := c.massage.stringToUint64 value
    (nb.1, nb.2)
  | (_, false) => c.options.defaults.uint key

/-- consulSource.Uint8: widest parse, then `uint8(number)`. -/
def ConsulSource.uint8 (c : ConsulSource) (key : String) : Nat × Bool :=
  match c.lookup key with
  | (value, true) =>
    let nb := c.massage.stringToUint64 value
    (wrapUnsigned 8 nb.1, nb.2)
  | (_, false) => c.options.defaults.uint8 key

/-- consulSource.Uint16: widest parse, then `uint16(number)`. -/
def ConsulSource.uint16 (c : ConsulSource) (key : String) : Nat × Bool :=
  match c.lookup key with
  | (value, true) =>
    let nb := c.massage.stringToUint64 value
    (wrapUnsigned 16 nb.1, nb.2)
  | (_, false) => c.options.defaults.uint16 key

/-- consulSource.Uint32: widest parse, then `uint32(number)`. -/
def ConsulSource.uint32 (c : ConsulSource) (key : String) : Nat × Bool :=
  match c.lookup key with
  | (value, true) =>
    let nb := c.massage.stringToUint64 value
    (wrapUnsigned 32 nb.1, nb.2)
  | (_, false) => c.options.defaults.uint32 key

/-- consulSource.Uint64. -/
def ConsulSource.uint64 (c : ConsulSource) (key : String) : Nat × Bool :=
  match c.lookup key with
  | (value, true) => c.massage.stringToUint64 value
  | (_, false) => c.options.defaults.uint64 key

/-- consulSource.Float32: float64 parse, then `float32(number)`. -/
def ConsulSource.float32 (c : ConsulSource) (key : String) : Float × Bool :=
  match c.lookup key with
  | (value, true) =>
    let nb := c.massage.stringToFloat64 value
    (toFloat32 nb.1, nb.2)
  | (_, false) => c.options.defaults.float32 key

/-- consulSource.Float64. -/
def ConsulSource.float64 (c : ConsulSource) (key : String) : Float × Bool :=
  match c.lookup key with
  | (value, true) => c.massage.stringToFloat64 value
  | (_, false) => c.options.defaults.float64 key

/-- consulSource.Bool. -/
def ConsulSource.bool (c : ConsulSource) (key : String) : Bool × Bool :=
  match c.lookup key with
  | (value, true) => c.massage.stringToBool value
  | (_, false) => c.options.defaults.bool key

/-- consulSource.Duration. -/
def ConsulSource.duration (c : ConsulSource) (key : String) : Int × Bool :=
  match c.lookup key with
  | (value, true) => c.massage.stringToDuration value
  | (_, false) => c.options.defaults.duration key

/-- consulSource.Time. -/
def ConsulSource.time (c : ConsulSource) (key : String) : Int × Bool :=
  match c.lookup key with
  | (value, true) => c.massage.stringToTime value
  | (_, false) => c.options.defaults.time key

/-- The source with its Defaults replaced — used to state that an
outcome does not consult the Defaults source. -/
def setDefaults (c : ConsulSource) (d : SourceFns) : ConsulSource :=
  { c with options := { c.options with defaults := d } }

/-- An observable event in the life of a source after construction:
a refresh-interval tick (whose remote list call is modelled by its
result), a Watch registration, or the cancellation signal firing. -/
inductive Event where
  | refreshTick (listResult : Option (List (String × String) × Nat))
  | setWatch (callback : Option Nat)
  | cancel
deriving DecidableEq

/-- Whether an event is a Watch registration. -/
def Event.isSetWatch : Event → Bool
  | .setWatch _ => true
  | _ => false

/-- The source together with the background loop's liveness (listen's
goroutine: exited forever once the context is done) and a count of
watcher invocations. -/
structure SysState where
  src : ConsulSource
  cancelled : Bool
  fires : Nat

/-- One event step.  Cancellation is terminal: once the loop has exited,
a tick never reaches refresh (listen's `case <-Context.Done(): return`);
Watch just stores the callback; an uncancelled tick runs refresh and
counts a watcher invocation when it fired. -/
def stepEvent (s : SysState) (e : Event) : SysState :=
  match e with
  | .cancel => { s with cancelled := true }
  | .setWatch cb => { s with src := s.src.watch cb }
  | .refreshTick res =>
    if s.cancelled then s
    else
      let rf := s.src.refresh res
      { s with src := rf.1, fires := s.fires + (if rf.2 then 1 else 0) }

/-- A run of the system over a sequence of events. -/
def runEvents (s : SysState) (es : List Event) : SysState :=
  es.foldl stepEvent s

/-- The zero value of configify.Options overlaid with the constructor's
presets in src/unnamed/part_001: `Defaults: configify.Empty()`,
`RefreshInterval: 10 * time.Second`. -/
def defaultOptions : Options where
  hasContext := false
  address := ""
  username := ""
  password := ""
  ns := { name := "", delim := "" }
  defaults := emptySource
  refreshInterval := tenSecondsNs

/-- `apply`: fold the functional options over the preset record. -/
def applyOpts (opts : List (Options → Options)) (base : Options) : Options :=
  opts.foldl (fun acc o => o acc) base

/-- NewSource (src/unnamed/part_001, functional-options form).
`clientResult` models `api.NewClient` (fails when the address is
malformed); `listResult` models the initial refresh's remote call
(`none` when the endpoint is unreachable).  Returns the constructed
source and whether the watcher fired during the initial refresh. -/
def newSource (opts : List (Options → Options)) (clientResult : Except String Unit)
    (listResult : Option (List (String × String) × Nat)) :
    Except String (ConsulSource × Bool) :=
  let options := applyOpts opts defaultOptions
  if options.hasContext = false then
    Except.error "consul source: missing context option"
  else if options.address = "" then
    Except.error "consul source: missing address option"
  else
    match clientResult with
    | Except.error e => Except.error ("consul source: connect error: " ++ e)
    | Except.ok _ =>
      let source : ConsulSource :=
        { options := options, massage := specMassage, values := [], lastIndex := 0,
          watcher := none }
      Except.ok (source.refresh listResult)

/-- NewSource (src/consul.go, struct-options form: the caller passes a
pre-built client; context and client are checked for nil, the refresh
interval floored at 1s to the 10s default, missing Defaults replaced by
the empty source). -/
def newSourceStruct (hasContext : Bool) (client : Option Unit)
    (defaultsOpt : Option SourceFns) (refreshInterval : Int) (ns : GoNamespace)
    (listResult : Option (List (String × String) × Nat)) :
    Except String (ConsulSource × Bool) :=
  if hasContext = false then
    Except.error "consul source: context is nil"
  else
    match client with
    | none => Except.error "consul source: client is nil"
    | some _ =>
      let interval := if refreshInterval < oneSecondNs then tenSecondsNs else refreshInterval
      let defaults := match defaultsOpt with
        | none => emptySource
        | some d => d
      let options : Options :=
        { hasContext := true, address := "", username := "", password := "",
          ns := ns, defaults := defaults, refreshInterval := interval }
      let source : ConsulSource :=
        { options := options, massage := specMassage, values := [], lastIndex := 0,
          watcher := none }
      Except.ok (source.refresh listResult)

/-- A non-trivial Defaults source used by concrete instantiations, so
that delegation and non-delegation are observable. -/
def sampleDefaults : SourceFns where
  string := fun _ => ("fallback", true)
  stringSlice := fun _ => (["a", "b"], true)
  int := fun _ => (7, true)
  int8 := fun _ => (7, true)
  int16 := fun _ => (7, true)
  int32 := fun _ => (7, true)
  int64 := fun _ => (7, true)
  uint := fun _ => (7, true)
  uint8 := fun _ => (7, true)
  uint16 := fun _ => (7, true)
  uint32 := fun _ => (7, true)
  uint64 := fun _ => (7, true)
  float32 := fun _ => ((7.0 : Float), true)
  float64 := fun _ => ((7.0 : Float), true)
  bool := fun _ => (true, true)
  duration := fun _ => (7, true)
  time := fun _ => (7, true)

/-- Concrete options for instantiations: namespace FOO with delimiter
"/", empty defaults. -/
def sampleOptions : Options where
  hasContext := true
  address := "consul.host:8500"
  username := ""
  password := ""
  ns := { name := "FOO", delim := "/" }
  defaults := emptySource
  refreshInterval := tenSecondsNs

/-- A concrete source holding a parseable value, a padded string and an
unparseable value. -/
def sampleSource : ConsulSource where
  options := sampleOptions
  massage := specMassage
  values := [("FOO/HTTP_PORT", "1234"), ("FOO/HTTP_HOST", "  foo.example.com  "),
             ("FOO/BAD", "abc")]
  lastIndex := 5
  watcher := none

/-- The sample source with the non-trivial Defaults configured. -/
def fallbackSource : ConsulSource :=
  { sampleSource with options := { sampleOptions with defaults := sampleDefaults } }

/-- The sample source with a registered watcher, inside a live system
state. -/
def watchState : SysState where
  src := sampleSource.watch (some 1)
  cancelled := false
  fires := 0

/-- The sample source after cancellation. -/
def cancelledState : SysState where
  src := sampleSource
  cancelled := true
  fires := 0

/-- Concrete functional options for constructor instantiations: set the
context and the address. -/
def demoOpts : List (Options → Options) :=
  [fun o => { o with hasContext := true },
   fun o => { o with address := "consul.host:8500" }]

lemma lookup_hit (c : ConsulSource) (key raw : String)
    (h : mapGet c.values (c.options.ns.Qualify key) = some raw) :
    c.lookup key = (trimSpace raw, true) := by
  simp [ConsulSource.lookup, h]

lemma lookup_miss (c : ConsulSource) (key : String)
    (h : mapGet c.values (c.options.ns.Qualify key) = none) :
    c.lookup key = ("", false) := by
  simp [ConsulSource.lookup, h]

lemma stringToInt64Spec_failed (s : String) (h : (stringToInt64Spec s).2 = false) :
    stringToInt64Spec s = (0, false) := by
  unfold stringToInt64Spec at h ⊢
  rcases hp : parseNatAll (splitSign s.data).2 with _ | n <;> simp [hp] at h ⊢
  by_cases hf : int64Fits (signedValue (splitSign s.data).1 n) <;> simp [hf] at h ⊢

lemma stringToUint64Spec_failed (s : String) (h : (stringToUint64Spec s).2 = false) :
    stringToUint64Spec s = (0, false) := by
  unfold stringToUint64Spec at h ⊢
  rcases hp : parseNatAll s.data with _ | n <;> simp [hp] at h ⊢
  split at h
  · simp at h
  · omega

lemma stringToBoolSpec_failed (s : String) (h : (stringToBoolSpec s).2 = false) :
    stringToBoolSpec s = (false, false) := by
  unfold stringToBoolSpec at h ⊢
  by_cases h1 : s = "1" ∨ s = "t" ∨ s = "T" ∨ s = "true" ∨ s = "TRUE" ∨ s = "True"
  · simp [h1] at h
  · by_cases h0 : s = "0" ∨ s = "f" ∨ s = "F" ∨ s = "false" ∨ s = "FALSE" ∨ s = "False"
    · simp [h1, h0] at h
    · simp [h1, h0]

lemma wrapSigned_zero (w : Nat) : wrapSigned w 0 = 0 := by
  have hpos : (0 : Int) < 2 ^ (w - 1) := by positivity
  simp [wrapSigned, hpos]

lemma refresh_stale (c : ConsulSource) (pairs : List (String × String)) (idx : Nat)
    (h : idx ≤ c.lastIndex) : c.refresh (some (pairs, idx)) = (c, false) := by
  simp [ConsulSource.refresh, h]

lemma refresh_applied (c : ConsulSource) (pairs : List (String × String)) (idx : Nat)
    (h : ¬ idx ≤ c.lastIndex) :
    (c.refresh (some (pairs, idx))).1 =
      { c with lastIndex := idx, values := buildValues pairs } := by
  cases hw : c.watcher <;> simp [ConsulSource.refresh, h, hw]

lemma refresh_watcher_none (c : ConsulSource)
    (res : Option (List (String × String) × Nat)) (h : c.watcher = none) :
    (c.refresh res).2 = false := by
  cases res with
  | none => rfl
  | some pr =>
    by_cases hle : pr.2 ≤ c.lastIndex
    · simp [ConsulSource.refresh, hle]
    · simp [ConsulSource.refresh, hle, h]

lemma refresh_watcher_eq (c : ConsulSource)
    (res : Option (List (String × String) × Nat)) :
    ((c.refresh res).1).watcher = c.watcher := by
  cases res with
  | none => rfl
  | some pr =>
    by_cases hle : pr.2 ≤ c.lastIndex
    · simp [ConsulSource.refresh, hle]
    · cases hw : c.watcher <;> simp [ConsulSource.refresh, hle, hw]

lemma refresh_lastIndex_le (c : ConsulSource)
    (res : Option (List (String × String) × Nat)) :
    c.lastIndex ≤ ((c.refresh res).1).lastIndex := by
  cases res with
  | none => exact le_refl _
  | some pr =>
    by_cases hle : pr.2 ≤ c.lastIndex
    · simp [ConsulSource.refresh, hle]
    · rw [refresh_applied c pr.1 pr.2 hle]
      exact le_of_not_le hle

lemma stepEvent_lastIndex_le (s : SysState) (e : Event) :
    s.src.lastIndex ≤ (stepEvent s e).src.lastIndex := by
  cases e with
  | cancel => exact le_refl _
  | setWatch cb => exact le_refl _
  | refreshTick res =>
    by_cases hc : s.cancelled <;> simp [stepEvent, hc]
    exact refresh_lastIndex_le s.src res

lemma runEvents_lastIndex_le (es : List Event) :
    ∀ s : SysState, s.src.lastIndex ≤ (runEvents s es).src.lastIndex := by
  induction es with
  | nil => intro s; exact le_refl _
  | cons e rest ih =>
    intro s
    exact le_trans (stepEvent_lastIndex_le s e) (ih (stepEvent s e))

/-- C1: for every key whose qualified form is present in the current
snapshot, lookup and the typed accessors operate on the trimmed raw
value — a parseable value yields `(parse(trim(raw)), true)` — and a
refresh stores the raw value untrimmed, with trimming happening only at
lookup time. -/
theorem consul_present_parses_trimmed (c : ConsulSource) (key raw : String)
    (h : mapGet c.values (c.options.ns.Qualify key) = some raw) :
    c.lookup key = (trimSpace raw, true) ∧
    c.string key = (trimSpace raw, true) ∧
    (∀ n, c.massage.stringToInt64 (trimSpace raw) = (n, true) →
      c.int64 key = (n, true)) ∧
    (∀ b, c.massage.stringToBool (trimSpace raw) = (b, true) →
      c.bool key = (b, true)) ∧
    (∀ d, c.massage.stringToDuration (trimSpace raw) = (d, true) →
      c.duration key = (d, true)) ∧
    (∀ idx, c.lastIndex < idx →
      ((c.refresh (some ([(c.options.ns.Qualify key, raw)], idx))).1).values =
        [(c.options.ns.Qualify key, raw)] ∧
      ((c.refresh (some ([(c.options.ns.Qualify key, raw)], idx))).1).lookup key =
        (trimSpace raw, true)) := by
  have hl := lookup_hit c key raw h
  refine ⟨hl, ?_, ?_, ?_, ?_, ?_⟩
  · simp [ConsulSource.string, hl]
  · intro n hn
    simp [ConsulSource.int64, hl, hn]
  · intro b hb
    simp [ConsulSource.bool, hl, hb]
  · intro d hd
    simp [ConsulSource.duration, hl, hd]
  · intro idx hidx
    have hnle : ¬ idx ≤ c.lastIndex := not_le.mpr hidx
    have happ := refresh_applied c [(c.options.ns.Qualify key, raw)] idx hnle
    have hvals : buildValues [(c.options.ns.Qualify key, raw)] =
        [(c.options.ns.Qualify key, raw)] := rfl
    constructor
    · rw [happ, hvals]
    · rw [happ]
      simp [ConsulSource.lookup, hvals, mapGet]

/-- C2: for every key whose qualified form is absent from the current
snapshot, every typed accessor returns exactly what the configured
Defaults source returns for that key, found flag included. -/
theorem consul_absent_delegates_to_defaults (c : ConsulSource) (key : String)
    (h : mapGet c.values (c.options.ns.Qualify key) = none) :
    c.string key = c.options.defaults.string key ∧
    c.stringSlice key = c.options.defaults.stringSlice key ∧
    c.int key = c.options.defaults.int key ∧
    c.int8 key = c.options.defaults.int8 key ∧
    c.int16 key = c.options.defaults.int16 key ∧
    c.int32 key = c.options.defaults.int32 key ∧
    c.int64 key = c.options.defaults.int64 key ∧
    c.uint key = c.options.defaults.uint key ∧
    c.uint8 key = c.options.defaults.uint8 key ∧
    c.uint16 key = c.options.defaults.uint16 key ∧
    c.uint32 key = c.options.defaults.uint32 key ∧
    c.uint64 key = c.options.defaults.uint64 key ∧
    c.float32 key = c.options.defaults.float32 key ∧
    c.float64 key = c.options.defaults.float64 key ∧
    c.bool key = c.options.defaults.bool key ∧
    c.duration key = c.options.defaults.duration key ∧
    c.time key = c.options.defaults.time key := by
  have hl := lookup_miss c key h
  exact ⟨by simp [ConsulSource.string, hl], by simp [ConsulSource.stringSlice, hl],
    by simp [ConsulSource.int, hl], by simp [ConsulSource.int8, hl],
    by simp [ConsulSource.int16, hl], by simp [ConsulSource.int32, hl],
    by simp [ConsulSource.int64, hl], by simp [ConsulSource.uint, hl],
    by simp [ConsulSource.uint8, hl], by simp [ConsulSource.uint16, hl],
    by simp [ConsulSource.uint32, hl], by simp [ConsulSource.uint64, hl],
    by simp [ConsulSource.float32, hl], by simp [ConsulSource.float64, hl],
    by simp [ConsulSource.bool, hl], by simp [ConsulSource.duration, hl],
    by simp [ConsulSource.time, hl]⟩

/-- C1 witness: on the sample source, the padded raw value
"  foo.example.com  " is stored untrimmed and read back trimmed. -/
theorem consul_present_parses_trimmed_witness :
    mapGet sampleSource.values (sampleSource.options.ns.Qualify "HTTP_HOST") =
      some "  foo.example.com  " ∧
    sampleSource.string "HTTP_HOST" = ("foo.example.com", true) := by
  have h := consul_present_parses_trimmed sampleSource "HTTP_HOST" "  foo.example.com  "
    (by decide)
  refine ⟨by decide, ?_⟩
  have hs := h.2.1
  rw [show trimSpace "  foo.example.com  " = "foo.example.com" from by decide] at hs
  exact hs

/-- C2 witness: on the sample source with non-trivial Defaults, a
missing key delegates to the Defaults source, found flag included. -/
theorem consul_absent_delegates_to_defaults_witness :
    fallbackSource.string "MISSING" = ("fallback", true) ∧
    fallbackSource.int "MISSING" = (7, true) ∧
    fallbackSource.bool "MISSING" = (true, true) := by
  obtain ⟨h1, _, h3, _, _, _, _, _, _, _, _, _, _, _, h15, _, _⟩ :=
    consul_absent_delegates_to_defaults fallbackSource "MISSING" (by decide)
  exact ⟨h1.trans (by decide), h3.trans (by decide), h15.trans (by decide)⟩

/-- C3: for every key whose qualified form is present but whose trimmed
raw value fails to parse as the requested type, the accessor returns
`(zero(T), false)` — for every possible Defaults source, so Defaults is
never consulted. -/
theorem consul_parse_failure_fail_closed (c : ConsulSource) (key raw : String)
    (h : mapGet c.values (c.options.ns.Qualify key) = some raw)
    (hm : c.massage = specMassage) :
    ((stringToInt64Spec (trimSpace raw)).2 = false →
      ∀ d : SourceFns,
        (setDefaults c d).int key = (0, false) ∧
        (setDefaults c d).int8 key = (0, false) ∧
        (setDefaults c d).int16 key = (0, false) ∧
        (setDefaults c d).int32 key = (0, false) ∧
        (setDefaults c d).int64 key = (0, false)) ∧
    ((stringToUint64Spec (trimSpace raw)).2 = false →
      ∀ d : SourceFns,
        (setDefaults c d).uint key = (0, false) ∧
        (setDefaults c d).uint8 key = (0, false) ∧
        (setDefaults c d).uint16 key = (0, false) ∧
        (setDefaults c d).uint32 key = (0, false) ∧
        (setDefaults c d).uint64 key = (0, false)) ∧
    ((stringToBoolSpec (trimSpace raw)).2 = false →
      ∀ d : SourceFns, (setDefaults c d).bool key = (false, false)) := by
  have hl : ∀ d : SourceFns, (setDefaults c d).lookup key = (trimSpace raw, true) := by
    intro d
    exact lookup_hit _ key raw (by simpa [setDefaults] using h)
  have hmm : ∀ d : SourceFns, (setDefaults c d).massage = specMassage := by
    intro d; simpa [setDefaults] using hm
  refine ⟨?_, ?_, ?_⟩
  · intro hfail d
    have hz := stringToInt64Spec_failed _ hfail
    refine ⟨?_, ?_, ?_, ?_, ?_⟩ <;>
      simp [ConsulSource.int, ConsulSource.int8, ConsulSource.int16, ConsulSource.int32,
        ConsulSource.int64, hl d, hmm d, specMassage, hz, wrapSigned_zero]
  · intro hfail d
    have hz := stringToUint64Spec_failed _ hfail
    refine ⟨?_, ?_, ?_, ?_, ?_⟩ <;>
      simp [ConsulSource.uint, ConsulSource.uint8, ConsulSource.uint16, ConsulSource.uint32,
        ConsulSource.uint64, hl d, hmm d, specMassage, hz, wrapUnsigned]
  · intro hfail d
    have hz := stringToBoolSpec_failed _ hfail
    simp [ConsulSource.bool, hl d, hmm d, specMassage, hz]

/-- C3 witness: the sample source holds "abc" under FOO/BAD; the integer
accessor yields `(0, false)` even when the substituted Defaults source
would have supplied `(7, true)`. -/
theorem consul_parse_failure_fail_closed_witness :
    (setDefaults sampleSource sampleDefaults).int "BAD" = (0, false) ∧
    (setDefaults sampleSource sampleDefaults).bool "BAD" = (false, false) ∧
    sampleDefaults.int "BAD" = (7, true) := by
  have h := consul_parse_failure_fail_closed sampleSource "BAD" "abc" (by decide) rfl
  exact ⟨(h.1 (by decide) sampleDefaults).1, h.2.2 (by decide) sampleDefaults, by decide⟩

/-- C4: every narrow integer accessor parses at the widest 64-bit width
and truncates to the requested width by two's-complement bit truncation
rather than erroring. -/
theorem consul_integer_narrowing (c : ConsulSource) (key raw : String)
    (h : mapGet c.values (c.options.ns.Qualify key) = some raw) :
    (∀ n, c.massage.stringToInt64 (trimSpace raw) = (n, true) →
      c.int8 key = (wrapSigned 8 n, true) ∧
      c.int16 key = (wrapSigned 16 n, true) ∧
      c.int32 key = (wrapSigned 32 n, true)) ∧
    (∀ u, c.massage.stringToUint64 (trimSpace raw) = (u, true) →
      c.uint8 key = (wrapUnsigned 8 u, true) ∧
      c.uint16 key = (wrapUnsigned 16 u, true) ∧
      c.uint32 key = (wrapUnsigned 32 u, true)) := by
  have hl := lookup_hit c key raw h
  constructor
  · intro n hn
    exact ⟨by simp [ConsulSource.int8, hl, hn], by simp [ConsulSource.int16, hl, hn],
      by simp [ConsulSource.int32, hl, hn]⟩
  · intro u hu
    exact ⟨by simp [ConsulSource.uint8, hl, hu], by simp [ConsulSource.uint16, hl, hu],
      by simp [ConsulSource.uint32, hl, hu]⟩

/-- C4 witness: on raw value "1234", the signed 8-bit accessor returns
`(-46, true)` and the unsigned 8-bit accessor `(210, true)`. -/
theorem consul_integer_narrowing_witness :
    sampleSource.int8 "HTTP_PORT" = (-46, true) ∧
    sampleSource.uint8 "HTTP_PORT" = (210, true) := by
  have h := consul_integer_narrowing sampleSource "HTTP_PORT" "1234" (by decide)
  have h8 := (h.1 1234 (by decide)).1
  have hu8 := (h.2 1234 (by decide)).1
  rw [show wrapSigned 8 1234 = -46 from by decide] at h8
  rw [show wrapUnsigned 8 1234 = 210 from by decide] at hu8
  exact ⟨h8, hu8⟩

/-- C5: a refresh whose remote listing carries a version at or below the
applied version is a complete no-op (state unchanged, no callback), and
the applied version never decreases — per refresh and across any run of
the system. -/
theorem consul_stale_refresh_noop :
    (∀ (c : ConsulSource) (pairs : List (String × String)) (idx : Nat),
      idx ≤ c.lastIndex → c.refresh (some (pairs, idx)) = (c, false)) ∧
    (∀ (c : ConsulSource) (res : Option (List (String × String) × Nat)),
      c.lastIndex ≤ ((c.refresh res).1).lastIndex) ∧
    (∀ (s : SysState) (es : List Event),
      s.src.lastIndex ≤ (runEvents s es).src.lastIndex) :=
  ⟨refresh_stale, refresh_lastIndex_le, fun s es => runEvents_lastIndex_le es s⟩

/-- C5 witness: a listing at the currently applied version 5 leaves the
sample source untouched and fires nothing. -/
theorem consul_stale_refresh_noop_witness :
    sampleSource.refresh (some ([("FOO/HTTP_PORT", "9999")], 5)) = (sampleSource, false) ∧
    sampleSource.lastIndex ≤ ((sampleSource.refresh none).1).lastIndex :=
  ⟨consul_stale_refresh_noop.1 sampleSource [("FOO/HTTP_PORT", "9999")] 5 (by decide),
   consul_stale_refresh_noop.2.1 sampleSource none⟩

/-- C6: a refresh whose remote list call errors returns silently with
all state unchanged and no callback; as a system step it is the
identity, so the background loop keeps running and the next scheduled
tick is the only retry. -/
theorem consul_refresh_error_silent :
    (∀ c : ConsulSource, c.refresh none = (c, false)) ∧
    (∀ s : SysState, stepEvent s (Event.refreshTick none) = s) := by
  constructor
  · intro c; rfl
  · intro s
    obtain ⟨src, cancelled, fires⟩ := s
    cases cancelled <;> simp [stepEvent, ConsulSource.refresh]

/-- C7: the watcher never fires during the construction-time initial
refresh (either constructor), and an uncancelled tick increments the
invocation count by exactly one precisely when a callback is registered
and the listing's version strictly exceeds the applied version. -/
theorem consul_watch_fires_iff_new_version :
    (∀ (opts : List (Options → Options)) (clientRes : Except String Unit)
       (listRes : Option (List (String × String) × Nat)) (src : ConsulSource) (fired : Bool),
      newSource opts clientRes listRes = Except.ok (src, fired) → fired = false) ∧
    (∀ (hc : Bool) (cl : Option Unit) (dOpt : Option SourceFns) (ri : Int)
       (ns : GoNamespace) (listRes : Option (List (String × String) × Nat))
       (src : ConsulSource) (fired : Bool),
      newSourceStruct hc cl dOpt ri ns listRes = Except.ok (src, fired) → fired = false) ∧
    (∀ (s : SysState) (res : Option (List (String × String) × Nat)),
      s.cancelled = false →
      ((stepEvent s (Event.refreshTick res)).fires = s.fires ∨
        (stepEvent s (Event.refreshTick res)).fires = s.fires + 1) ∧
      ((stepEvent s (Event.refreshTick res)).fires = s.fires + 1 ↔
        (s.src.watcher ≠ none ∧
          ∃ pairs idx, res = some (pairs, idx) ∧ s.src.lastIndex < idx))) := by
  refine ⟨?_, ?_, ?_⟩
  · intro opts cr lr src fired hok
    unfold newSource at hok
    by_cases h1 : (applyOpts opts defaultOptions).hasContext = false
    · simp [h1] at hok
    · by_cases h2 : (applyOpts opts defaultOptions).address = ""
      · simp [h1, h2] at hok
      · cases cr with
        | error e => simp [h1, h2] at hok
        | ok u =>
          simp [h1, h2] at hok
          have hsnd := congrArg Prod.snd hok.symm
          simp at hsnd
          rw [hsnd, refresh_watcher_none _ lr rfl]
  · intro hc cl dOpt ri ns lr src fired hok
    unfold newSourceStruct at hok
    by_cases h1 : hc = false
    · simp [h1] at hok
    · cases cl with
      | none => simp [h1] at hok
      | some u =>
        simp [h1] at hok
        have hsnd := congrArg Prod.snd hok.symm
        simp at hsnd
        rw [hsnd, refresh_watcher_none _ lr rfl]
  · intro s res hc
    have hstep : stepEvent s (Event.refreshTick res) =
        { s with src := (s.src.refresh res).1,
                 fires := s.fires + (if (s.src.refresh res).2 then 1 else 0) } := by
      simp [stepEvent, hc]
    rw [hstep]
    cases res with
    | none =>
      constructor
      · left; simp [ConsulSource.refresh]
      · constructor
        · intro hfalse; simp [ConsulSource.refresh] at hfalse
        · rintro ⟨-, pairs, idx, heq, -⟩; exact absurd heq (by simp)
    | some pr =>
      obtain ⟨pairs, idx⟩ := pr
      by_cases hle : idx ≤ s.src.lastIndex
      · rw [refresh_stale s.src pairs idx hle]
        constructor
        · left; rfl
        · constructor
          · intro hfalse; simp at hfalse
          · rintro ⟨-, pairs', idx', heq, hlt⟩
            simp at heq
            obtain ⟨-, rfl⟩ := heq
            exact absurd hlt (not_lt.mpr hle)
      · cases hw : s.src.watcher with
        | none =>
          have hf := refresh_watcher_none s.src (some (pairs, idx)) hw
          rw [hf]
          constructor
          · left; rfl
          · constructor
            · intro hfalse; simp at hfalse
            · rintro ⟨hne, -⟩; exact absurd rfl hne
        | some w =>
          have hf : (s.src.refresh (some (pairs, idx))).2 = true := by
            simp [ConsulSource.refresh, hle, hw]
          rw [hf]
          constructor
          · right; rfl
          · constructor
            · intro _
              exact ⟨by simp, pairs, idx, rfl, not_le.mp hle⟩
            · intro _; simp

/-- C7 witness: with a registered callback and a listing at version 9
over applied version 5, one tick fires the callback exactly once. -/
theorem consul_watch_fires_iff_new_version_witness :
    (stepEvent watchState
      (Event.refreshTick (some ([("FOO/HTTP_PORT", "9999")], 9)))).fires = 1 := by
  have h := (consul_watch_fires_iff_new_version.2.2 watchState
    (some ([("FOO/HTTP_PORT", "9999")], 9)) rfl).2
  exact h.mpr ⟨by decide, [("FOO/HTTP_PORT", "9999")], 9, rfl, by decide⟩

lemma runEvents_frozen (es : List Event) :
    ∀ s : SysState, s.cancelled = true →
      (runEvents s es).cancelled = true ∧
      (runEvents s es).src.values = s.src.values ∧
      (runEvents s es).src.lastIndex = s.src.lastIndex ∧
      (runEvents s es).src.options = s.src.options ∧
      (runEvents s es).src.massage = s.src.massage := by
  induction es with
  | nil => intro s h; exact ⟨h, rfl, rfl, rfl, rfl⟩
  | cons e rest ih =>
    intro s h
    have hstep : (stepEvent s e).cancelled = true ∧
        (stepEvent s e).src.values = s.src.values ∧
        (stepEvent s e).src.lastIndex = s.src.lastIndex ∧
        (stepEvent s e).src.options = s.src.options ∧
        (stepEvent s e).src.massage = s.src.massage := by
      cases e with
      | cancel => exact ⟨rfl, rfl, rfl, rfl, rfl⟩
      | setWatch cb => exact ⟨h, rfl, rfl, rfl, rfl⟩
      | refreshTick res => simp [stepEvent, h]
    obtain ⟨h1, h2, h3, h4, h5⟩ := hstep
    obtain ⟨g1, g2, g3, g4, g5⟩ := ih (stepEvent s e) h1
    exact ⟨g1, g2.trans h2, g3.trans h3, g4.trans h4, g5.trans h5⟩

lemma accessors_congr (c c' : ConsulSource) (hv : c'.values = c.values)
    (ho : c'.options = c.options) (hm : c'.massage = c.massage) (key : String) :
    c'.string key = c.string key ∧ c'.int key = c.int key ∧
      c'.bool key = c.bool key := by
  have hl : c'.lookup key = c.lookup key := by
    unfold ConsulSource.lookup
    rw [hv, ho]
  unfold ConsulSource.string ConsulSource.int ConsulSource.bool
  rw [hl, ho, hm]
  exact ⟨rfl, rfl, rfl⟩

/-- C8: once the cancellation signal has fired, no run of subsequent
events ever replaces the snapshot: the values, version, options and
coercions are frozen, so every later typed read returns exactly what
the last pre-cancellation snapshot gives, regardless of later remote
mutations or elapsed intervals. -/
theorem consul_cancellation_freezes (s : SysState) (es : List Event)
    (h : s.cancelled = true) :
    (runEvents s es).cancelled = true ∧
    (runEvents s es).src.values = s.src.values ∧
    (runEvents s es).src.lastIndex = s.src.lastIndex ∧
    (∀ key, (runEvents s es).src.string key = s.src.string key) ∧
    (∀ key, (runEvents s es).src.int key = s.src.int key) ∧
    (∀ key, (runEvents s es).src.bool key = s.src.bool key) := by
  obtain ⟨h1, h2, h3, h4, h5⟩ := runEvents_frozen es s h
  exact ⟨h1, h2, h3,
    fun key => (accessors_congr s.src (runEvents s es).src h2 h4 h5 key).1,
    fun key => (accessors_congr s.src (runEvents s es).src h2 h4 h5 key).2.1,
    fun key => (accessors_congr s.src (runEvents s es).src h2 h4 h5 key).2.2⟩

/-- C8 witness: after cancellation, a tick carrying a remote mutation at
version 99 does not change what the string accessor returns. -/
theorem consul_cancellation_freezes_witness :
    (runEvents cancelledState
      [Event.refreshTick (some ([("FOO/HTTP_HOST", "google.com")], 99))]).src.string
        "HTTP_HOST" = ("foo.example.com", true) := by
  have h := consul_cancellation_freezes cancelledState
    [Event.refreshTick (some ([("FOO/HTTP_HOST", "google.com")], 99))] rfl
  exact (h.2.2.2.1 "HTTP_HOST").trans (by decide)

/-- C9: construction returns an error and produces no source exactly
when the context is missing, the address is missing, or the transport
client cannot be constructed (for the struct-options constructor: the
context or the client is nil); an unreachable endpoint at construction
time still yields a source that serves empty/default data. -/
theorem consul_construction_error_conditions :
    (∀ (opts : List (Options → Options)) (clientRes : Except String Unit)
       (listRes : Option (List (String × String) × Nat)),
      (∃ e, newSource opts clientRes listRes = Except.error e) ↔
        ((applyOpts opts defaultOptions).hasContext = false ∨
         (applyOpts opts defaultOptions).address = "" ∨
         ∃ e, clientRes = Except.error e)) ∧
    (∀ (hc : Bool) (cl : Option Unit) (dOpt : Option SourceFns) (ri : Int)
       (ns : GoNamespace) (listRes : Option (List (String × String) × Nat)),
      (∃ e, newSourceStruct hc cl dOpt ri ns listRes = Except.error e) ↔
        (hc = false ∨ cl = none)) ∧
    (∀ opts : List (Options → Options),
      (applyOpts opts defaultOptions).hasContext = true →
      (applyOpts opts defaultOptions).address ≠ "" →
      ∃ src : ConsulSource,
        newSource opts (Except.ok ()) none = Except.ok (src, false) ∧
        src.values = [] ∧ src.lastIndex = 0 ∧
        (∀ key, src.string key =
          (applyOpts opts defaultOptions).defaults.string key)) := by
  refine ⟨?_, ?_, ?_⟩
  · intro opts cr lr
    by_cases h1 : (applyOpts opts defaultOptions).hasContext = false
    · simp [newSource, h1]
    · by_cases h2 : (applyOpts opts defaultOptions).address = ""
      · simp [newSource, h1, h2]
      · cases cr with
        | error e => simp [newSource, h1, h2]
        | ok u => simp [newSource, h1, h2]
  · intro hc cl dOpt ri ns lr
    by_cases h1 : hc = false
    · simp [newSourceStruct, h1]
    · cases cl with
      | none => simp [newSourceStruct, h1]
      | some u => simp [newSourceStruct, h1]
  · intro opts h1 h2
    refine ⟨{ options := applyOpts opts defaultOptions, massage := specMassage,
              values := [], lastIndex := 0, watcher := none }, ?_, rfl, rfl, ?_⟩
    · simp [newSource, h1, h2, ConsulSource.refresh]
    · intro key
      simp [ConsulSource.string, ConsulSource.lookup, mapGet]

/-- C9 witness: with context and address set, an unreachable endpoint
still produces a source with an empty snapshot; with no options at all,
construction errors. -/
theorem consul_construction_error_conditions_witness :
    (∃ src : ConsulSource, newSource demoOpts (Except.ok ()) none =
        Except.ok (src, false) ∧ src.values = []) ∧
    (∃ e, newSource [] (Except.ok ()) none = Except.error e) := by
  constructor
  · obtain ⟨src, hok, hv, -, -⟩ :=
      consul_construction_error_conditions.2.2 demoOpts rfl (by decide)
    exact ⟨src, hok, hv⟩
  · exact (consul_construction_error_conditions.1 [] (Except.ok ()) none).mpr
      (Or.inl rfl)

lemma run_no_setWatch_no_fire (es : List Event) :
    ∀ s : SysState, s.src.watcher = none → (∀ e ∈ es, e.isSetWatch = false) →
      (runEvents s es).fires = s.fires ∧ (runEvents s es).src.watcher = none := by
  induction es with
  | nil => intro s hw _; exact ⟨rfl, hw⟩
  | cons e rest ih =>
    intro s hw hall
    have he : e.isSetWatch = false := hall e (List.mem_cons_self e rest)
    have hrest : ∀ e' ∈ rest, e'.isSetWatch = false :=
      fun e' h' => hall e' (List.mem_cons_of_mem e h')
    have hstep : (stepEvent s e).fires = s.fires ∧
        (stepEvent s e).src.watcher = none := by
      cases e with
      | cancel => exact ⟨rfl, hw⟩
      | setWatch cb => simp [Event.isSetWatch] at he
      | refreshTick res =>
        by_cases hc : s.cancelled
        · simp [stepEvent, hc, hw]
        · have hf := refresh_watcher_none s.src res hw
          have hwe := refresh_watcher_eq s.src res
          simp [stepEvent, hc, hf, hwe, hw]
    obtain ⟨f1, f2⟩ := hstep
    obtain ⟨g1, g2⟩ := ih (stepEvent s e) f2 hrest
    exact ⟨g1.trans f1, g2⟩

/-- C10: Watch unconditionally overwrites the single callback slot and
touches nothing else; refresh fires only when the slot is non-nil; so
registering nil is an effective unsubscribe — after Watch(nil), no run
of non-Watch events ever fires a callback. -/
theorem consul_watch_overwrite_and_nil_unsubscribes :
    (∀ (c : ConsulSource) (cb : Option Nat),
      (c.watch cb).watcher = cb ∧ (c.watch cb).values = c.values ∧
      (c.watch cb).lastIndex = c.lastIndex ∧ (c.watch cb).options = c.options) ∧
    (∀ (c : ConsulSource) (res : Option (List (String × String) × Nat)),
      c.watcher = none → (c.refresh res).2 = false) ∧
    (∀ (s : SysState) (es : List Event), (∀ e ∈ es, e.isSetWatch = false) →
      (runEvents (stepEvent s (Event.setWatch none)) es).fires = s.fires) := by
  refine ⟨fun c cb => ⟨rfl, rfl, rfl, rfl⟩, refresh_watcher_none, ?_⟩
  intro s es hall
  exact (run_no_setWatch_no_fire es (stepEvent s (Event.setWatch none)) rfl hall).1

/-- C10 witness: with a callback registered, registering nil and then
ticking with a strictly newer listing fires nothing. -/
theorem consul_watch_overwrite_and_nil_unsubscribes_witness :
    (runEvents (stepEvent watchState (Event.setWatch none))
      [Event.refreshTick (some ([("FOO/HTTP_PORT", "9999")], 50))]).fires = 0 := by
  have h := consul_watch_overwrite_and_nil_unsubscribes.2.2 watchState
    [Event.refreshTick (some ([("FOO/HTTP_PORT", "9999")], 50))] (by decide)
  exact h

end Consul
